import Mathlib

/-!
Verification of the Resemble voice MCP gateway (`src/server.py`).

The file shallowly embeds the four operations of the gateway
(`generate_voice`, `list_available_voices`, `list_projects`,
`create_project`) as total Lean functions over an explicit model of the
HTTP collaborator: a response is a status code, a raw body text, and the
outcome of parsing that text as JSON; transport-level and unexpected
exceptions are explicit constructors.  Python dictionaries are modelled
as association lists of JSON values, and Python truthiness is made
explicit.  The streaming voice call additionally models the chunked body
and the base64 encoding done by the code.
-/

namespace ResembleMCP

/-- JSON values, the model of the untyped Python dict/list/str/int data
that flows through the gateway.  Numbers are integers (the gateway only
handles integral fields). -/
inductive JValue where
  | null
  | bool (b : Bool)
  | num (n : Int)
  | str (s : String)
  | arr (xs : List JValue)
  | obj (fields : List (String × JValue))
deriving Repr

/-- Python truthiness of a JSON value (`if data.get("success"):`). -/
def JValue.truthy : JValue → Bool
  | .null => false
  | .bool b => b
  | .num n => n != 0
  | .str s => s != ""
  | .arr xs => !xs.isEmpty
  | .obj fs => !fs.isEmpty

/-- Field lookup on a JSON value: `some v` when the value is an object
with the field, `none` otherwise. -/
def JValue.getField : JValue → String → Option JValue
  | .obj fields, key => fields.lookup key
  | _, _ => none

/-- Python name of the runtime type of a JSON value, used to render the
`AttributeError` raised by `data.get(...)` on a non-dict. -/
def JValue.pyTypeName : JValue → String
  | .null => "NoneType"
  | .bool _ => "bool"
  | .num _ => "int"
  | .str _ => "str"
  | .arr _ => "list"
  | .obj _ => "dict"

/-- `str(e)` for the `AttributeError` raised by `data.get(...)` when the
parsed JSON body is not a dict. -/
def attrErrDetail (v : JValue) : String :=
  "'" ++ v.pyTypeName ++ "' object has no attribute 'get'"

/-- Model of a buffered HTTP response from the `requests` collaborator:
status code, raw body text (`response.text`), and the outcome of
`response.json()` — a parsed value, or a parse failure carrying the
exception's message. -/
structure HttpResponse where
  status : Nat
  bodyText : String
  bodyJson : Except String JValue
deriving Repr

/-- Outcome of a buffered HTTP exchange: a response, a transport-level
`requests.RequestException` (connection error, timeout, DNS failure),
or any other unexpected exception, each carrying `str(e)`. -/
inductive HttpOutcome where
  | response (r : HttpResponse)
  | requestException (msg : String)
  | otherException (msg : String)
deriving Repr

/-- Outcome of the streamed POST issued by `generate_voice`: an initial
status line followed by the chunks `iter_content` yields (possibly
empty ones), or an exception. -/
inductive StreamOutcome where
  | response (status : Nat) (chunks : List (List Nat))
  | requestException (msg : String)
  | otherException (msg : String)
deriving Repr

/-! ## Base64 (model of Python's `base64.b64encode`) -/

/-- The standard base64 alphabet. -/
def b64Alphabet : List Char :=
  "ABCDEFGHIJKLMNOPQRSTUVWXYZabcdefghijklmnopqrstuvwxyz0123456789+/".data

/-- The base64 digit for a 6-bit value. -/
def b64Char (n : Nat) : Char := b64Alphabet.getD n 'A'

/-- Index of a character in the base64 alphabet. -/
def b64CharIndex (c : Char) : Option Nat :=
  b64Alphabet.findIdx? (· == c)

/-- `base64.b64encode`: bytes to base64 characters, 3 input bytes per 4
output characters, `'='`-padded. -/
def base64EncodeChars : List Nat → List Char
  | a :: b :: c :: rest =>
      let n := a % 256 * 65536 + b % 256 * 256 + c % 256
      b64Char (n / 262144) :: b64Char (n / 4096 % 64) ::
        b64Char (n / 64 % 64) :: b64Char (n % 64) :: base64EncodeChars rest
  | [a, b] =>
      let n := a % 256 * 65536 + b % 256 * 256
      [b64Char (n / 262144), b64Char (n / 4096 % 64), b64Char (n / 64 % 64), '=']
  | [a] =>
      let n := a % 256 * 65536
      [b64Char (n / 262144), b64Char (n / 4096 % 64), '=', '=']
  | [] => []

/-- A standard base64 decoder (used to state the round-trip property of
the encoded `audio_data_base64` payload). -/
def base64DecodeChars : List Char → Option (List Nat)
  | [] => some []
  | c1 :: c2 :: c3 :: c4 :: rest =>
      if rest = [] ∧ c3 = '=' ∧ c4 = '=' then
        (b64CharIndex c1).bind fun w =>
        (b64CharIndex c2).bind fun x =>
        some [w * 4 + x / 16]
      else if rest = [] ∧ c4 = '=' then
        (b64CharIndex c1).bind fun w =>
        (b64CharIndex c2).bind fun x =>
        (b64CharIndex c3).bind fun y =>
        some [w * 4 + x / 16, x % 16 * 16 + y / 4]
      else
        (b64CharIndex c1).bind fun w =>
        (b64CharIndex c2).bind fun x =>
        (b64CharIndex c3).bind fun y =>
        (b64CharIndex c4).bind fun z =>
        (base64DecodeChars rest).bind fun ds =>
        some ((w * 4 + x / 16) :: (x % 16 * 16 + y / 4) :: (y % 4 * 64 + z) :: ds)
  | _ => none

/-- Base64-decode a string (the inverse direction of
`base64.b64encode(...).decode('utf-8')`). -/
def base64DecodeString (s : String) : Option (List Nat) :=
  base64DecodeChars s.data

/-! ## The four gateway operations -/

/-- Python truthiness of an `Optional[str]`: `None` and `""` are falsy. -/
def pyStrTruthy : Option String → Bool
  | none => false
  | some s => s != ""

/-- Python `a or b` on `Optional[str]` values. -/
def pyOrStr (a b : Option String) : Option String :=
  if pyStrTruthy a then a else b

/-- The `{"success": False, "error": msg}` dictionaries every failure
path of the gateway returns. -/
def errorResult (msg : String) : JValue :=
  .obj [("success", .bool false), ("error", .str msg)]

/-- The chunk loop of `generate_voice`: append each non-empty chunk to
the buffer, add its length to `total_size`, and fail (`none`) the moment
the running total exceeds `10 * 1024 * 1024`. -/
def accumulateChunks : List (List Nat) → List Nat → Nat → Option (List Nat)
  | [], acc, _ => some acc
  | chunk :: rest, acc, total_size =>
    if chunk.isEmpty then accumulateChunks rest acc total_size
    else
      let acc' := acc ++ chunk
      let total' := total_size + chunk.length
      if total' > 10 * 1024 * 1024 then none
      else accumulateChunks rest acc' total'

/-- `generate_voice` (src/server.py:31-120).  `resembleApiKey` is the
process-wide `RESEMBLE_API_KEY` value passed explicitly; `out` is the
outcome of the streamed POST.  The inner `try` around join/encode cannot
fail in this model (joining and base64-encoding byte lists are total),
so its `"Failed to process audio data"` branch is unreachable here. -/
def generate_voice (text voice_uuid project_uuid : String)
    (api_token : Option String) (sample_rate : Int) (precision : String)
    (resembleApiKey : Option String) (out : StreamOutcome) : JValue :=
  let token := pyOrStr api_token resembleApiKey
  if !pyStrTruthy token then errorResult "No API token provided"
  else
    match out with
    | .requestException m => errorResult ("API request failed: " ++ m)
    | .otherException m => errorResult ("Unexpected error: " ++ m)
    | .response status chunks =>
      if status ≠ 200 then
        errorResult ("API request failed with status code: " ++ toString status)
      else
        match accumulateChunks chunks [] 0 with
        | none => errorResult "Audio response too large (>10MB)"
        | some audio_bytes =>
          .obj [("success", .bool true),
                ("audio_data_base64", .str (String.mk (base64EncodeChars audio_bytes))),
                ("content_type", .str "audio/wav"),
                ("sample_rate", .num sample_rate),
                ("precision", .str precision),
                ("size_bytes", .num audio_bytes.length)]

/-- Number of outbound HTTP requests a `generate_voice` call issues:
the streamed POST (src/server.py:76) is reached exactly when the token
check passed, and no other request is made. -/
def generate_voice_httpCalls (api_token resembleApiKey : Option String) : Nat :=
  if pyStrTruthy (pyOrStr api_token resembleApiKey) then 1 else 0

/-- `str(e)` for the `requests.HTTPError` that `raise_for_status` raises
on a 4xx/5xx status (its detail is rendered from the status code; the
reason/url parts of the real message are outside the model). -/
def raiseForStatusDetail (status : Nat) : String :=
  if status < 500 then toString status ++ " Client Error"
  else toString status ++ " Server Error"

/-- `list_available_voices` (src/server.py:123-157).
`response.raise_for_status()` raises `requests.HTTPError` — a
`requests.RequestException` — exactly on a 4xx/5xx status; on other
statuses `response.json()` is returned verbatim, with a parse failure
caught by the `json.JSONDecodeError` handler. -/
def list_available_voices (page page_size : Int) (out : HttpOutcome) : JValue :=
  match out with
  | .requestException m => errorResult ("API request failed: " ++ m)
  | .otherException m => errorResult ("Unexpected error: " ++ m)
  | .response r =>
    if 400 ≤ r.status ∧ r.status < 600 then
      errorResult ("API request failed: " ++ raiseForStatusDetail r.status)
    else
      match r.bodyJson with
      | .error _ => errorResult "Failed to parse API response"
      | .ok v => v

/-- `list_projects` (src/server.py:160-219).  On a 200 the body is
parsed and branched on the truthiness of `data.get("success")`; a parse
failure or a non-dict body raises inside the `try` and is caught by the
blanket `except Exception` as `"Request failed: ..."`.  A 401 gets the
authentication message, every other status the generic one with the raw
body text attached. -/
def list_projects (page page_size : Int) (out : HttpOutcome) : JValue :=
  match out with
  | .requestException m => errorResult ("Request failed: " ++ m)
  | .otherException m => errorResult ("Request failed: " ++ m)
  | .response r =>
    if r.status = 200 then
      match r.bodyJson with
      | .error m => errorResult ("Request failed: " ++ m)
      | .ok data =>
        match data with
        | .obj fields =>
          if ((fields.lookup "success").getD .null).truthy then
            .obj [("success", .bool true),
                  ("page", (fields.lookup "page").getD .null),
                  ("num_pages", (fields.lookup "num_pages").getD .null),
                  ("page_size", (fields.lookup "page_size").getD .null),
                  ("projects", (fields.lookup "items").getD (.arr []))]
          else
            errorResult "API request successful but returned no data"
        | v => errorResult ("Request failed: " ++ attrErrDetail v)
    else if r.status = 401 then
      errorResult "Authentication failed. Please check your API key."
    else
      .obj [("success", .bool false),
            ("error", .str ("API returned status code " ++ toString r.status)),
            ("response", .str r.bodyText)]

/-- `create_project` (src/server.py:222-266).  Statuses 200 and 201 are
treated as success, extracting `data.get("item", {})`; a parse failure
or non-dict body in that branch raises and is caught by the blanket
`except Exception`.  Every other status yields the generic message with
the raw body text attached — there is no 401-specific branch. -/
def create_project (name : String) (out : HttpOutcome) : JValue :=
  match out with
  | .requestException m => errorResult ("Request failed: " ++ m)
  | .otherException m => errorResult ("Request failed: " ++ m)
  | .response r =>
    if r.status = 200 ∨ r.status = 201 then
      match r.bodyJson with
      | .error m => errorResult ("Request failed: " ++ m)
      | .ok data =>
        match data with
        | .obj fields =>
          .obj [("success", .bool true),
                ("project", (fields.lookup "item").getD (.obj []))]
        | v => errorResult ("Request failed: " ++ attrErrDetail v)
    else
      .obj [("success", .bool false),
            ("error", .str ("API returned status code " ++ toString r.status)),
            ("response", .str r.bodyText)]

/-- Whether a gateway result is an object carrying a boolean `success`
field. -/
def hasBoolSuccess (v : JValue) : Bool :=
  match v.getField "success" with
  | some (.bool _) => true
  | _ => false

/-! ## Base64 lemmas -/

theorem b64CharIndex_b64Char : ∀ n : Nat, n < 64 → b64CharIndex (b64Char n) = some n := by
  decide

theorem b64Char_ne_pad : ∀ n : Nat, n < 64 → b64Char n ≠ '=' := by
  decide

/-- Decoding inverts encoding on byte lists. -/
theorem base64_roundtrip : ∀ bs : List Nat, (∀ b ∈ bs, b < 256) →
    base64DecodeChars (base64EncodeChars bs) = some bs
  | [], _ => rfl
  | [a], h => by
    have ha : a < 256 := h a (by simp)
    have hma : a % 256 = a := Nat.mod_eq_of_lt ha
    simp only [base64EncodeChars, hma]
    have h1 : a * 65536 / 262144 < 64 := by omega
    have h2 : a * 65536 / 4096 % 64 < 64 := Nat.mod_lt _ (by norm_num)
    simp only [base64DecodeChars]
    rw [if_pos (by simp), b64CharIndex_b64Char _ h1, b64CharIndex_b64Char _ h2]
    simp only [Option.some_bind, Option.some.injEq, List.cons.injEq, and_true]
    omega
  | [a, b], h => by
    have ha : a < 256 := h a (by simp)
    have hb : b < 256 := h b (by simp)
    have hma : a % 256 = a := Nat.mod_eq_of_lt ha
    have hmb : b % 256 = b := Nat.mod_eq_of_lt hb
    simp only [base64EncodeChars, hma, hmb]
    have h1 : (a * 65536 + b * 256) / 262144 < 64 := by omega
    have h2 : (a * 65536 + b * 256) / 4096 % 64 < 64 := Nat.mod_lt _ (by norm_num)
    have h3 : (a * 65536 + b * 256) / 64 % 64 < 64 := Nat.mod_lt _ (by norm_num)
    simp only [base64DecodeChars]
    rw [if_neg (fun hc => b64Char_ne_pad _ h3 hc.2.1), if_pos (by simp),
      b64CharIndex_b64Char _ h1, b64CharIndex_b64Char _ h2, b64CharIndex_b64Char _ h3]
    simp only [Option.some_bind, Option.some.injEq, List.cons.injEq, and_true]
    omega
  | a :: b :: c :: d :: rest, h => by
    have ha : a < 256 := h a (by simp)
    have hb : b < 256 := h b (by simp)
    have hc : c < 256 := h c (by simp)
    have ih := base64_roundtrip (d :: rest) (fun x hx => h x (by simp at hx ⊢; tauto))
    have hma : a % 256 = a := Nat.mod_eq_of_lt ha
    have hmb : b % 256 = b := Nat.mod_eq_of_lt hb
    have hmc : c % 256 = c := Nat.mod_eq_of_lt hc
    simp only [base64EncodeChars, hma, hmb, hmc]
    have h1 : (a * 65536 + b * 256 + c) / 262144 < 64 := by omega
    have h2 : (a * 65536 + b * 256 + c) / 4096 % 64 < 64 := Nat.mod_lt _ (by norm_num)
    have h3 : (a * 65536 + b * 256 + c) / 64 % 64 < 64 := Nat.mod_lt _ (by norm_num)
    have h4 : (a * 65536 + b * 256 + c) % 64 < 64 := Nat.mod_lt _ (by norm_num)
    simp only [base64DecodeChars]
    rw [if_neg (fun hx => b64Char_ne_pad _ h3 hx.2.1),
      if_neg (fun hx => b64Char_ne_pad _ h4 hx.2),
      b64CharIndex_b64Char _ h1, b64CharIndex_b64Char _ h2,
      b64CharIndex_b64Char _ h3, b64CharIndex_b64Char _ h4, ih]
    simp only [Option.some_bind, Option.some.injEq, List.cons.injEq, and_true]
    refine ⟨by omega, by omega, by omega⟩
  | [a, b, c], h => by
    have ha : a < 256 := h a (by simp)
    have hb : b < 256 := h b (by simp)
    have hc : c < 256 := h c (by simp)
    have hma : a % 256 = a := Nat.mod_eq_of_lt ha
    have hmb : b % 256 = b := Nat.mod_eq_of_lt hb
    have hmc : c % 256 = c := Nat.mod_eq_of_lt hc
    simp only [base64EncodeChars, hma, hmb, hmc]
    have h1 : (a * 65536 + b * 256 + c) / 262144 < 64 := by omega
    have h2 : (a * 65536 + b * 256 + c) / 4096 % 64 < 64 := Nat.mod_lt _ (by norm_num)
    have h3 : (a * 65536 + b * 256 + c) / 64 % 64 < 64 := Nat.mod_lt _ (by norm_num)
    have h4 : (a * 65536 + b * 256 + c) % 64 < 64 := Nat.mod_lt _ (by norm_num)
    simp only [base64DecodeChars]
    rw [if_neg (fun hx => b64Char_ne_pad _ h3 hx.2.1),
      if_neg (fun hx => b64Char_ne_pad _ h4 hx.2),
      b64CharIndex_b64Char _ h1, b64CharIndex_b64Char _ h2,
      b64CharIndex_b64Char _ h3, b64CharIndex_b64Char _ h4]
    simp only [Option.some_bind, Option.some.injEq, List.cons.injEq, and_true]
    refine ⟨by omega, by omega, by omega⟩

/-! ## Chunk-accumulation lemmas -/

/-- When the total byte count fits in the limit, the chunk loop returns
the accumulator followed by the concatenation of all chunks. -/
theorem accumulateChunks_complete : ∀ (chunks : List (List Nat)) (acc : List Nat)
    (total : Nat), total + chunks.flatten.length ≤ 10 * 1024 * 1024 →
    accumulateChunks chunks acc total = some (acc ++ chunks.flatten)
  | [], acc, total, _ => by simp [accumulateChunks]
  | chunk :: rest, acc, total, h => by
    cases chunk with
    | nil =>
      have ih := accumulateChunks_complete rest acc total (by simpa using h)
      simpa [accumulateChunks] using ih
    | cons x xs =>
      have hlen : total + (x :: xs).length + rest.flatten.length ≤ 10 * 1024 * 1024 := by
        simp only [List.flatten_cons, List.length_append] at h
        omega
      have ih := accumulateChunks_complete rest (acc ++ x :: xs)
        (total + (x :: xs).length) (by omega)
      rw [accumulateChunks]
      simp only [List.isEmpty_cons, Bool.false_eq_true, if_false]
      rw [if_neg (by omega), ih]
      simp [List.append_assoc]

/-- When the total byte count exceeds the limit, the chunk loop aborts
with `none` (provided the running total has not yet exceeded it, the
loop's invariant). -/
theorem accumulateChunks_overflow : ∀ (chunks : List (List Nat)) (acc : List Nat)
    (total : Nat), total ≤ 10 * 1024 * 1024 →
    10 * 1024 * 1024 < total + chunks.flatten.length →
    accumulateChunks chunks acc total = none
  | [], _, total, hle, hgt => by simp at hgt; omega
  | chunk :: rest, acc, total, hle, hgt => by
    cases chunk with
    | nil =>
      have ih := accumulateChunks_overflow rest acc total hle (by simpa using hgt)
      simpa [accumulateChunks] using ih
    | cons x xs =>
      rw [accumulateChunks]
      simp only [List.isEmpty_cons, Bool.false_eq_true, if_false]
      by_cases hov : 10 * 1024 * 1024 < total + (x :: xs).length
      · rw [if_pos (by omega)]
      · have hgt' : 10 * 1024 * 1024 <
            total + (x :: xs).length + rest.flatten.length := by
          simp only [List.flatten_cons, List.length_append] at hgt
          omega
        have ih := accumulateChunks_overflow rest (acc ++ x :: xs)
          (total + (x :: xs).length) (by omega) hgt'
        rw [if_neg (by omega), ih]

/-! ## Claims about `generate_voice` -/

/-- C1: for every byte sequence of total length `N < 10485760` delivered
by a 200 streamed response, under any chunking of that sequence,
`generate_voice` returns `success:true` with `size_bytes = N`, and
base64-decoding `audio_data_base64` yields exactly the original bytes;
the result is determined by the joined sequence alone, independent of
the chunk boundaries. -/
theorem generate_voice_roundtrip (text voice_uuid project_uuid : String)
    (api_token resembleApiKey : Option String) (sample_rate : Int) (precision : String)
    (data : List Nat) (chunks : List (List Nat))
    (htok : pyStrTruthy (pyOrStr api_token resembleApiKey) = true)
    (hsplit : chunks.flatten = data)
    (hlen : data.length < 10485760)
    (hbytes : ∀ b ∈ data, b < 256) :
    generate_voice text voice_uuid project_uuid api_token sample_rate precision
        resembleApiKey (.response 200 chunks) =
      .obj [("success", .bool true),
            ("audio_data_base64", .str (String.mk (base64EncodeChars data))),
            ("content_type", .str "audio/wav"),
            ("sample_rate", .num sample_rate),
            ("precision", .str precision),
            ("size_bytes", .num data.length)] ∧
    base64DecodeString (String.mk (base64EncodeChars data)) = some data := by
  constructor
  · have hacc : accumulateChunks chunks [] 0 = some data := by
      have := accumulateChunks_complete chunks [] 0 (by rw [hsplit]; omega)
      simpa [hsplit] using this
    simp [generate_voice, htok, hacc]
  · show base64DecodeChars (String.mk (base64EncodeChars data)).data = some data
    exact base64_roundtrip data hbytes

/-- Witness for C1 at a concrete chunked stream. -/
theorem generate_voice_roundtrip_witness :
    pyStrTruthy (pyOrStr (some "k") none) = true ∧
    ([[1, 2], [3, 4, 5]] : List (List Nat)).flatten = [1, 2, 3, 4, 5] ∧
    ([1, 2, 3, 4, 5] : List Nat).length < 10485760 ∧
    (∀ b ∈ ([1, 2, 3, 4, 5] : List Nat), b < 256) ∧
    (generate_voice "t" "v" "p" (some "k") 22050 "PCM_16" none
        (.response 200 [[1, 2], [3, 4, 5]]) =
      .obj [("success", .bool true),
            ("audio_data_base64", .str (String.mk (base64EncodeChars [1, 2, 3, 4, 5]))),
            ("content_type", .str "audio/wav"),
            ("sample_rate", .num 22050),
            ("precision", .str "PCM_16"),
            ("size_bytes", .num ([1, 2, 3, 4, 5] : List Nat).length)] ∧
     base64DecodeString (String.mk (base64EncodeChars [1, 2, 3, 4, 5])) =
       some [1, 2, 3, 4, 5]) :=
  ⟨rfl, rfl, by norm_num, by decide,
    generate_voice_roundtrip "t" "v" "p" (some "k") none 22050 "PCM_16"
      [1, 2, 3, 4, 5] [[1, 2], [3, 4, 5]] rfl rfl (by norm_num) (by decide)⟩

/-- C2: a 200 streamed response whose cumulative byte count exceeds
10485760 makes `generate_voice` return exactly the two-field
`{success:false, error:"Audio response too large (>10MB)"}` object, so
in particular no `audio_data_base64` field and no partial data. -/
theorem generate_voice_oversize (text voice_uuid project_uuid : String)
    (api_token resembleApiKey : Option String) (sample_rate : Int) (precision : String)
    (chunks : List (List Nat))
    (htok : pyStrTruthy (pyOrStr api_token resembleApiKey) = true)
    (hlen : 10485760 < chunks.flatten.length) :
    generate_voice text voice_uuid project_uuid api_token sample_rate precision
        resembleApiKey (.response 200 chunks) =
      .obj [("success", .bool false),
            ("error", .str "Audio response too large (>10MB)")] ∧
    (generate_voice text voice_uuid project_uuid api_token sample_rate precision
        resembleApiKey (.response 200 chunks)).getField "audio_data_base64" = none := by
  have hacc : accumulateChunks chunks [] 0 = none :=
    accumulateChunks_overflow chunks [] 0 (by omega) (by omega)
  constructor
  · simp [generate_voice, htok, hacc, errorResult]
  · simp [generate_voice, htok, hacc, errorResult, JValue.getField]

/-- Witness for C2 at a concrete oversized stream (one 10485761-byte
chunk, modelled as a replicated list). -/
theorem generate_voice_oversize_witness :
    pyStrTruthy (pyOrStr (some "k") none) = true ∧
    10485760 < ([List.replicate 10485761 0] : List (List Nat)).flatten.length ∧
    (generate_voice "t" "v" "p" (some "k") 22050 "PCM_16" none
        (.response 200 [List.replicate 10485761 0]) =
      .obj [("success", .bool false),
            ("error", .str "Audio response too large (>10MB)")] ∧
     (generate_voice "t" "v" "p" (some "k") 22050 "PCM_16" none
        (.response 200 [List.replicate 10485761 0])).getField "audio_data_base64"
       = none) :=
  ⟨rfl,
    by simp only [List.flatten_cons, List.flatten_nil, List.append_nil,
      List.length_replicate]; norm_num,
    generate_voice_oversize "t" "v" "p" (some "k") none 22050 "PCM_16"
      [List.replicate 10485761 0] rfl
      (by simp only [List.flatten_cons, List.flatten_nil, List.append_nil,
        List.length_replicate]; norm_num)⟩

/-- C4: with no per-call override and no (or an empty) process-default
key, `generate_voice` returns the no-token error whatever the HTTP
outcome would have been, and the number of outbound HTTP requests it
issues is zero. -/
theorem generate_voice_no_token (text voice_uuid project_uuid : String)
    (resembleApiKey : Option String) (sample_rate : Int) (precision : String)
    (hkey : pyStrTruthy resembleApiKey = false) :
    (∀ out, generate_voice text voice_uuid project_uuid none sample_rate precision
        resembleApiKey out =
      .obj [("success", .bool false), ("error", .str "No API token provided")]) ∧
    generate_voice_httpCalls none resembleApiKey = 0 := by
  have h0 : pyOrStr none resembleApiKey = resembleApiKey := by
    simp [pyOrStr, pyStrTruthy]
  constructor
  · intro out
    simp [generate_voice, h0, hkey, errorResult]
  · simp [generate_voice_httpCalls, h0, hkey]

/-- Witness for C4 with an absent process-default key. -/
theorem generate_voice_no_token_witness :
    pyStrTruthy none = false ∧
    (generate_voice "t" "v" "p" none 22050 "PCM_16" none
        (.response 200 [[1]]) =
      .obj [("success", .bool false), ("error", .str "No API token provided")]) ∧
    generate_voice_httpCalls none none = 0 := by
  have h := generate_voice_no_token "t" "v" "p" none 22050 "PCM_16" rfl
  exact ⟨rfl, h.1 (.response 200 [[1]]), h.2⟩

/-- C8: every non-200 initial status makes `generate_voice` fail with
the single generic template
`"API request failed with status code: <code>"`; there is no
status-specific branching (401 included). -/
theorem generate_voice_non200 (text voice_uuid project_uuid : String)
    (api_token resembleApiKey : Option String) (sample_rate : Int) (precision : String)
    (status : Nat) (chunks : List (List Nat))
    (htok : pyStrTruthy (pyOrStr api_token resembleApiKey) = true)
    (hst : status ≠ 200) :
    generate_voice text voice_uuid project_uuid api_token sample_rate precision
        resembleApiKey (.response status chunks) =
      .obj [("success", .bool false),
            ("error", .str ("API request failed with status code: " ++ toString status))] := by
  simp [generate_voice, htok, hst, errorResult]

/-- Witness for C8 at status 401. -/
theorem generate_voice_non200_witness :
    pyStrTruthy (pyOrStr (some "k") none) = true ∧ (401 : Nat) ≠ 200 ∧
    generate_voice "t" "v" "p" (some "k") 22050 "PCM_16" none
        (.response 401 [[1]]) =
      .obj [("success", .bool false),
            ("error", .str ("API request failed with status code: " ++ toString (401 : Nat)))] :=
  ⟨rfl, by norm_num,
    generate_voice_non200 "t" "v" "p" (some "k") none 22050 "PCM_16" 401 [[1]]
      rfl (by norm_num)⟩

/-! ## Claims about the JSON operations -/

theorem hasBoolSuccess_errorResult (msg : String) :
    hasBoolSuccess (errorResult msg) = true := rfl

/-- C3 (amended): `generate_voice`, `list_projects` and `create_project`
return, for every input and every upstream outcome, an object with a
boolean `success` field (the operations are total functions of the
modelled outcome, so no exception escapes); `list_available_voices` does
so for every outcome except a non-raising response whose body parses as
JSON, which it returns verbatim, with a `success` field only if the
upstream body happens to carry one. -/
theorem operations_success_field :
    (∀ text voice_uuid project_uuid api_token sample_rate precision resembleApiKey out,
      hasBoolSuccess (generate_voice text voice_uuid project_uuid api_token
        sample_rate precision resembleApiKey out) = true) ∧
    (∀ page page_size out, hasBoolSuccess (list_projects page page_size out) = true) ∧
    (∀ name out, hasBoolSuccess (create_project name out) = true) ∧
    (∀ page page_size out,
      hasBoolSuccess (list_available_voices page page_size out) = true ∨
      ∃ r v, out = .response r ∧ ¬(400 ≤ r.status ∧ r.status < 600) ∧
        r.bodyJson = .ok v ∧ list_available_voices page page_size out = v) := by
  refine ⟨?_, ?_, ?_, ?_⟩
  · intro text voice_uuid project_uuid api_token sample_rate precision resembleApiKey out
    simp only [generate_voice]
    repeat' split <;> try rfl
  · intro page page_size out
    simp only [list_projects]
    repeat' split <;> try rfl
  · intro name out
    simp only [create_project]
    repeat' split <;> try rfl
  · intro page page_size out
    cases out with
    | requestException m => left; rfl
    | otherException m => left; rfl
    | response r =>
      obtain ⟨status, btext, bjson⟩ := r
      by_cases h : 400 ≤ status ∧ status < 600
      · left
        unfold list_available_voices
        dsimp only
        rw [if_pos h]
        rfl
      · cases bjson with
        | error m =>
          left
          unfold list_available_voices
          dsimp only
          rw [if_neg h]
          rfl
        | ok v =>
          right
          refine ⟨⟨status, btext, .ok v⟩, v, rfl, h, rfl, ?_⟩
          unfold list_available_voices
          dsimp only
          rw [if_neg h]

/-- C3 counterexample: a 200 response whose body parses as the JSON
object `{}` makes `list_available_voices` return `{}` verbatim — an
object with no `success` field at all. -/
theorem voices_missing_success_cex :
    hasBoolSuccess (list_available_voices 1 10
      (.response ⟨200, "{}", .ok (.obj [])⟩)) = false := rfl

/-- C5 (amended): on an upstream 401, `list_projects` returns the
authentication-specific message, while `create_project` — which has no
401 branch — returns the generic status message with the raw body
attached. -/
theorem status401_messages (page page_size : Int) (name : String)
    (r : HttpResponse) (h401 : r.status = 401) :
    list_projects page page_size (.response r) =
      .obj [("success", .bool false),
            ("error", .str "Authentication failed. Please check your API key.")] ∧
    create_project name (.response r) =
      .obj [("success", .bool false),
            ("error", .str "API returned status code 401"),
            ("response", .str r.bodyText)] := by
  obtain ⟨status, btext, bjson⟩ := r
  simp only at h401
  subst h401
  constructor
  · unfold list_projects
    dsimp only
    rw [if_neg (by omega), if_pos rfl]
    rfl
  · unfold create_project
    dsimp only
    rw [if_neg (by omega)]
    rfl

/-- Witness for C5's amended statement at a concrete 401 response. -/
theorem status401_messages_witness :
    (HttpResponse.mk 401 "unauthorized" (.ok (.obj []))).status = 401 ∧
    (list_projects 1 10 (.response ⟨401, "unauthorized", .ok (.obj [])⟩) =
      .obj [("success", .bool false),
            ("error", .str "Authentication failed. Please check your API key.")] ∧
     create_project "p" (.response ⟨401, "unauthorized", .ok (.obj [])⟩) =
      .obj [("success", .bool false),
            ("error", .str "API returned status code 401"),
            ("response", .str "unauthorized")]) :=
  ⟨rfl, status401_messages 1 10 "p" ⟨401, "unauthorized", .ok (.obj [])⟩ rfl⟩

/-- C5 counterexample: on a 401, `create_project`'s error field is
exactly the generic `"API returned status code 401"` message, not an
authentication-specific one. -/
theorem create_project_401_cex :
    (create_project "p" (.response ⟨401, "unauthorized", .ok (.obj [])⟩)).getField
      "error" = some (.str "API returned status code 401") := rfl

/-- C6: an upstream 200 whose JSON body carries `success: true` makes
`list_projects` return exactly the reshaped object
`{success:true, page, num_pages, page_size, projects:<items, default []>}`
with every field drawn from the body. -/
theorem list_projects_success_reshape (page page_size : Int) (btext : String)
    (fields : List (String × JValue))
    (hs : fields.lookup "success" = some (.bool true)) :
    list_projects page page_size (.response ⟨200, btext, .ok (.obj fields)⟩) =
      .obj [("success", .bool true),
            ("page", (fields.lookup "page").getD .null),
            ("num_pages", (fields.lookup "num_pages").getD .null),
            ("page_size", (fields.lookup "page_size").getD .null),
            ("projects", (fields.lookup "items").getD (.arr []))] := by
  unfold list_projects
  dsimp only
  rw [if_pos rfl]
  rw [hs]
  rfl

/-- Witness for C6 at the body
`{success:true, page:2, num_pages:5, page_size:10, items:[{id:"x"}]}`. -/
theorem list_projects_success_reshape_witness :
    ([("success", JValue.bool true), ("page", JValue.num 2),
      ("num_pages", JValue.num 5), ("page_size", JValue.num 10),
      ("items", JValue.arr [JValue.obj [("id", JValue.str "x")]])].lookup "success"
      = some (JValue.bool true)) ∧
    list_projects 1 10 (.response ⟨200, "raw",
        .ok (.obj [("success", .bool true), ("page", .num 2),
          ("num_pages", .num 5), ("page_size", .num 10),
          ("items", .arr [.obj [("id", .str "x")]])])⟩) =
      .obj [("success", .bool true), ("page", .num 2), ("num_pages", .num 5),
            ("page_size", .num 10),
            ("projects", .arr [.obj [("id", .str "x")]])] :=
  ⟨rfl, by
    rw [list_projects_success_reshape 1 10 "raw"
      [("success", .bool true), ("page", .num 2), ("num_pages", .num 5),
       ("page_size", .num 10), ("items", .arr [.obj [("id", .str "x")]])] rfl]
    rfl⟩

/-- C7 (amended): `create_project` treats 200 and 201 as success,
extracting `project:<item, default {}>`, provided the body parses as a
JSON object (an unparseable or non-dict body raises inside the `try`
and lands in the catch-all instead); every other status yields the
generic `{success:false, error:"API returned status code <code>",
response:<raw body text>}` object. -/
theorem create_project_branches (name : String) (r : HttpResponse) :
    ((r.status = 200 ∨ r.status = 201) → ∀ fields, r.bodyJson = .ok (.obj fields) →
      create_project name (.response r) =
        .obj [("success", .bool true),
              ("project", (fields.lookup "item").getD (.obj []))]) ∧
    (r.status ≠ 200 → r.status ≠ 201 →
      create_project name (.response r) =
        .obj [("success", .bool false),
              ("error", .str ("API returned status code " ++ toString r.status)),
              ("response", .str r.bodyText)]) := by
  obtain ⟨status, btext, bjson⟩ := r
  constructor
  · intro hst fields hbody
    simp only at hbody
    subst hbody
    unfold create_project
    dsimp only
    rw [if_pos hst]
  · intro h200 h201
    unfold create_project
    dsimp only
    rw [if_neg (by simp only at h200 h201 ⊢; tauto)]

/-- Witness for C7's amended statement: a 201 with body `{item:{id:"x"}}`
and a 500 with body text `"boom"`. -/
theorem create_project_branches_witness :
    (((HttpResponse.mk 201 "raw" (.ok (.obj [("item", .obj [("id", .str "x")])]))).status = 200 ∨
      (HttpResponse.mk 201 "raw" (.ok (.obj [("item", .obj [("id", .str "x")])]))).status = 201) ∧
     create_project "p" (.response ⟨201, "raw", .ok (.obj [("item", .obj [("id", .str "x")])])⟩) =
       .obj [("success", .bool true), ("project", .obj [("id", .str "x")])]) ∧
    ((500 : Nat) ≠ 200 ∧ (500 : Nat) ≠ 201 ∧
     create_project "p" (.response ⟨500, "boom", .error "Expecting value"⟩) =
       .obj [("success", .bool false),
             ("error", .str ("API returned status code " ++ toString (500 : Nat))),
             ("response", .str "boom")]) :=
  ⟨⟨Or.inr rfl,
    by
      rw [(create_project_branches "p" ⟨201, "raw",
        .ok (.obj [("item", .obj [("id", .str "x")])])⟩).1 (Or.inr rfl)
        [("item", .obj [("id", .str "x")])] rfl]
      rfl⟩,
   by norm_num, by norm_num,
    (create_project_branches "p" ⟨500, "boom", .error "Expecting value"⟩).2
      (by norm_num) (by norm_num)⟩

/-- C7 counterexample: a 200 whose body does not parse as JSON makes
`create_project` return `success:false` (the catch-all branch), not the
claimed `{success:true, project:...}`. -/
theorem create_project_200_badjson_cex :
    (create_project "p" (.response ⟨200, "oops",
      .error "Expecting value: line 1 column 1 (char 0)"⟩)).getField "success" =
      some (.bool false) := rfl

/-- C9: a 2xx response whose body fails to parse as JSON makes
`list_available_voices` return
`{success:false, error:"Failed to parse API response"}`. -/
theorem voices_parse_failure (page page_size : Int) (status : Nat)
    (btext msg : String) (hlo : 200 ≤ status) (hhi : status < 300) :
    list_available_voices page page_size (.response ⟨status, btext, .error msg⟩) =
      .obj [("success", .bool false),
            ("error", .str "Failed to parse API response")] := by
  unfold list_available_voices
  dsimp only
  rw [if_neg (by omega)]
  rfl

/-- Witness for C9 at a 200 with an unparseable body. -/
theorem voices_parse_failure_witness :
    (200 : Nat) ≤ 200 ∧ (200 : Nat) < 300 ∧
    list_available_voices 1 10 (.response ⟨200, "oops", .error "Expecting value"⟩) =
      .obj [("success", .bool false),
            ("error", .str "Failed to parse API response")] :=
  ⟨by norm_num, by norm_num,
    voices_parse_failure 1 10 200 "oops" "Expecting value" (by norm_num) (by norm_num)⟩

/-- C10: `list_projects` never echoes its `page`/`page_size` arguments
into the result (the result is the same function of the outcome for any
arguments), and on a logical success every pagination field is drawn
from the response body, `null` when the body omits it. -/
theorem list_projects_fields_from_body :
    (∀ page₁ size₁ page₂ size₂ out,
      list_projects page₁ size₁ out = list_projects page₂ size₂ out) ∧
    (∀ page page_size btext fields,
      ((fields.lookup "success").getD .null).truthy = true →
      list_projects page page_size (.response ⟨200, btext, .ok (.obj fields)⟩) =
        .obj [("success", .bool true),
              ("page", (fields.lookup "page").getD .null),
              ("num_pages", (fields.lookup "num_pages").getD .null),
              ("page_size", (fields.lookup "page_size").getD .null),
              ("projects", (fields.lookup "items").getD (.arr []))]) := by
  constructor
  · intro page₁ size₁ page₂ size₂ out
    rfl
  · intro page page_size btext fields hs
    unfold list_projects
    dsimp only
    rw [if_pos rfl, if_pos hs]

/-- Witness for C10: a truthy body omitting `page` and `page_size`
yields `null` for those fields, ignoring the arguments `7` and `99`. -/
theorem list_projects_fields_from_body_witness :
    (list_projects 7 99 (.response ⟨200, "raw",
        .ok (.obj [("success", .bool true), ("num_pages", .num 3)])⟩) =
      list_projects 1 10 (.response ⟨200, "raw",
        .ok (.obj [("success", .bool true), ("num_pages", .num 3)])⟩)) ∧
    ((([("success", JValue.bool true), ("num_pages", JValue.num 3)].lookup
        "success").getD .null).truthy = true) ∧
    list_projects 7 99 (.response ⟨200, "raw",
        .ok (.obj [("success", .bool true), ("num_pages", .num 3)])⟩) =
      .obj [("success", .bool true), ("page", .null), ("num_pages", .num 3),
            ("page_size", .null), ("projects", .arr [])] :=
  ⟨list_projects_fields_from_body.1 7 99 1 10 _, rfl,
    by
      rw [list_projects_fields_from_body.2 7 99 "raw"
        [("success", .bool true), ("num_pages", .num 3)] rfl]
      rfl⟩

end ResembleMCP
